import Mathlib

/-!
Verification of the structure-processing pipeline of
`webservice/run_app.py` (oximachinetool).

The embedding models the two orchestration functions
`process_structure_core` and `process_precomputed_core`, together with
the coordinate transformation and output-assembly code they share
(`get_json_for_visualizer`, the XSF text block, the atom tables).

Modelling conventions:
* real numbers (Python floats) are modelled as exact rationals `ℚ`;
* a pymatgen `Structure` object is modelled by its
  `(cell, scaled_coords, atomic_numbers)` tuple, which is the only data
  the embedded code reads from it;
* Python exceptions are the inductive `PyExc`; a `try`/`except` block
  becomes a `match` on an `Except PyExc _` value;
* Python local variables that may be unbound when read (a behaviour the
  source actually exercises) are modelled as `Option` values read through
  `readLocal`, which raises `UnboundLocalError` exactly as Python does;
* the external collaborators (`get_structure_tuple`, `_featurize_single`,
  `predictions`, `get_explanations`, `CifParser`, `load_pickle`) live
  outside this repository; their *outcomes* are passed to the embedded
  orchestration functions as `Except` arguments;
* wall-clock timing fields (`parsing_time`, `compute_time`) are not
  modelled; string formatting of numbers is abstracted by keeping each
  emitted line structured (`XsfLine`).
-/

namespace Oxi

/-- A single quote character, used inside user-facing message strings. -/
def sq : String := String.singleton (Char.ofNat 39)

/-- A 3-component coordinate vector (one row of an `N×3` numpy array). -/
structure V3 where
  x : ℚ
  y : ℚ
  z : ℚ
deriving DecidableEq

/-- A `3×3` lattice matrix, stored as its three row vectors. -/
structure Mat3 where
  r1 : V3
  r2 : V3
  r3 : V3
deriving DecidableEq

/-- Row-vector times matrix: one row of `np.dot(coords, cell)`, i.e. the
linear combination of the lattice rows weighted by the coordinates. -/
def rowMulMat (v : V3) (m : Mat3) : V3 :=
  ⟨v.x * m.r1.x + v.y * m.r2.x + v.z * m.r3.x,
   v.x * m.r1.y + v.y * m.r2.y + v.z * m.r3.y,
   v.x * m.r1.z + v.y * m.r2.z + v.z * m.r3.z⟩

/-- Python `q % 1.0` on a real value: `q - floor q` (the result carries
the sign of the divisor, hence is non-negative). -/
def pymod1 (q : ℚ) : ℚ := q - ⌊q⌋

/-- Componentwise `% 1.0` on a coordinate row (numpy broadcasting of
`array % 1.0`). -/
def vmod1 (v : V3) : V3 := ⟨pymod1 v.x, pymod1 v.y, pymod1 v.z⟩

/-- `ase.data.chemical_symbols`: the symbol table indexed by atomic
number (index 0 is the placeholder species `X`). -/
def chemical_symbols : List String :=
  ["X", "H", "He", "Li", "Be", "B", "C", "N", "O", "F", "Ne",
   "Na", "Mg", "Al", "Si", "P", "S", "Cl", "Ar", "K", "Ca",
   "Sc", "Ti", "V", "Cr", "Mn", "Fe", "Co", "Ni", "Cu", "Zn",
   "Ga", "Ge", "As", "Se", "Br", "Kr", "Rb", "Sr", "Y", "Zr",
   "Nb", "Mo", "Tc", "Ru", "Rh", "Pd", "Ag", "Cd", "In", "Sn",
   "Sb", "Te", "I", "Xe", "Cs", "Ba", "La", "Ce", "Pr", "Nd",
   "Pm", "Sm", "Eu", "Gd", "Tb", "Dy", "Ho", "Er", "Tm", "Yb",
   "Lu", "Hf", "Ta", "W", "Re", "Os", "Ir", "Pt", "Au", "Hg",
   "Tl", "Pb", "Bi", "Po", "At", "Rn", "Fr", "Ra", "Ac", "Th",
   "Pa", "U", "Np", "Pu", "Am", "Cm", "Bk", "Cf", "Es", "Fm",
   "Md", "No", "Lr", "Rf", "Db", "Sg", "Bh", "Hs", "Mt", "Ds",
   "Rg", "Cn", "Nh", "Fl", "Mc", "Lv", "Ts", "Og"]

/-- Python exceptions that the embedded code raises, catches or lets
escape. `flaskRedirect` is `FlaskRedirectException` (its payload is the
message flashed to the user); `other` stands for any further exception,
carrying its `str()`. -/
inductive PyExc where
  | unknownFormatError
  | overlapError
  | largeStructureError
  | unboundLocalError (var : String)
  | indexError
  | flaskRedirect (msg : String)
  | other (msg : String)
deriving DecidableEq

/-- `str(e)` for an exception, as interpolated into messages.  Only the
`unboundLocalError` and `other` renderings matter to the theorems below;
the rest are coarse but fixed. -/
def pyExcStr : PyExc → String
  | .unknownFormatError => "UnknownFormatError"
  | .overlapError => "OverlapError"
  | .largeStructureError => "LargeStructureError"
  | .unboundLocalError v =>
      "local variable " ++ sq ++ v ++ sq ++ " referenced before assignment"
  | .indexError => "list index out of range"
  | .flaskRedirect m => m
  | .other m => m

/-- Reading a Python local variable: if it has never been assigned the
read raises `UnboundLocalError` naming the variable. -/
def readLocal {α : Type} (v : Option α) (var : String) : Except PyExc α :=
  match v with
  | some a => .ok a
  | none => .error (.unboundLocalError var)

/-- `chemical_symbols[num]`: list indexing, raising `IndexError` when the
atomic number is out of range. -/
def symbolLookup (n : Nat) : Except PyExc String :=
  if h : n < chemical_symbols.length then .ok (chemical_symbols.get ⟨n, h⟩)
  else .error .indexError

/-- Total variant of `symbolLookup` used to state theorems about
successful runs (out-of-range indices give `""`, a value `symbolLookup`
never returns). -/
def symOf (n : Nat) : String := chemical_symbols.getD n ""

/-- The list comprehension `[chemical_symbols[num] for num in nums]`:
evaluates left to right, raising on the first out-of-range index. -/
def lookup_symbols : List Nat → Except PyExc (List String)
  | [] => .ok []
  | n :: rest => do
      let s ← symbolLookup n
      let others ← lookup_symbols rest
      .ok (s :: others)

/-- The canonical `(cell, scaled_coords, atomic_numbers)` triple that
`get_structure_tuple` / `tuple_from_pymatgen` produce. -/
structure StructureTuple where
  cell : Mat3
  scaled_coords : List V3
  atomic_numbers : List Nat
deriving DecidableEq

/-- `tuple_from_pymatgen`: a pymatgen structure is modelled by its tuple,
so the conversion is the identity. -/
def tuple_from_pymatgen (s : StructureTuple) : StructureTuple := s

/-- Modelled from the spec: `Structure.get_primitive_structure` is
implemented by the external pymatgen library, not under `src/`.  The
spec describes it as deterministic symmetry reduction that collapses the
conventional cell to its primitive equivalent and returns an
already-primitive structure unchanged.  The model keeps the lattice,
maps every fractional coordinate into the principal cell and collapses
coincident `(position, atomic number)` duplicates, keeping first
occurrences (the search for a smaller primitive lattice is not
modelled). -/
def get_primitive_structure (s : StructureTuple) : StructureTuple :=
  let folded := s.scaled_coords.map vmod1
  let pairs := folded.zip s.atomic_numbers
  let uniq := pairs.dedup
  ⟨s.cell, uniq.unzip.1, uniq.unzip.2⟩

/-- The dictionary built by `get_json_for_visualizer` (run_app.py lines
80–88): the primitive structure's positions, lattice and types. -/
structure PathResults where
  primitive_positions : List V3
  primitive_lattice : Mat3
  primitive_types : List Nat
deriving DecidableEq

/-- `get_json_for_visualizer` (run_app.py lines 80–88). -/
def get_json_for_visualizer (s : StructureTuple) : PathResults :=
  let p := get_primitive_structure s
  { primitive_positions := p.scaled_coords,
    primitive_lattice := p.cell,
    primitive_types := p.atomic_numbers }

/-- `np.dot(positions % 1.0, lattice)` (run_app.py lines 453–456 and
178–181): the componentwise `% 1.0` is applied to the fractional
coordinates first, then the matrix product with the primitive lattice. -/
def refolded_cartesian (positions : List V3) (lattice : Mat3) : List V3 :=
  (positions.map vmod1).map (fun v => rowMulMat v lattice)

/-- One line of the XSF text block.  Numeric string formatting is
abstracted: each line is kept as its tokens.  `countLine n` renders as
the two-token line `"<n> 1"`. -/
inductive XsfLine where
  | header (token : String)
  | lvec (x y z : ℚ)
  | countLine (count : Nat)
  | atomLine (num : Nat) (x y z : ℚ)
deriving DecidableEq

/-- The XSF block builder (run_app.py lines 486–496 and 211–221):
`CRYSTAL`, `PRIMVEC`, the three lattice rows, `PRIMCOORD`, the
`"<count> 1"` line, then one line per atom pairing the atomic number
with the refolded Cartesian position. -/
def xsf_lines (primitive_lattice : Mat3) (primitive_types : List Nat)
    (refolded : List V3) : List XsfLine :=
  [XsfLine.header "CRYSTAL",
   XsfLine.header "PRIMVEC",
   XsfLine.lvec primitive_lattice.r1.x primitive_lattice.r1.y primitive_lattice.r1.z,
   XsfLine.lvec primitive_lattice.r2.x primitive_lattice.r2.y primitive_lattice.r2.z,
   XsfLine.lvec primitive_lattice.r3.x primitive_lattice.r3.y primitive_lattice.r3.z,
   XsfLine.header "PRIMCOORD",
   XsfLine.countLine refolded.length]
  ++ (primitive_types.zip refolded).map
      (fun p => XsfLine.atomLine p.1 p.2.x p.2.y p.2.z)

/-- The outcome of `_featurize_single(s)` unpacked at run_app.py lines
354–361: feature array, per-metal-site feature values, metal indices and
feature names.  Payload contents are opaque to the orchestration. -/
structure FeatureBundle where
  feature_array : List (List ℚ)
  feature_value_dict : List (Nat × ℚ)
  metal_indices : List Nat
  feature_names : List String
deriving DecidableEq

/-- The outcome of `predictions(feature_array, metal_sites)` (run_app.py
line 395). -/
structure Preds where
  predictions_output : List ℚ
  prediction_labels : List String
  class_idx : List Nat
deriving DecidableEq

/-- The JSON-serializable `raw_code_dict` built at run_app.py lines
443–461 (the JSON serialization and HTML escaping of the final string
are abstracted: the dict's content is modelled). -/
structure RawCodeDict where
  primitive_positions : List V3
  primitive_lattice : Mat3
  primitive_types : List Nat
  primitive_positions_cartesian : List V3
  primitive_symbols : List String
deriving DecidableEq

/-- Everything the assembly block (run_app.py lines 434–498 / 159–223)
binds for the final return value. -/
structure Assembled where
  raw_code : RawCodeDict
  inputstructure_cell_vectors : List (Nat × V3)
  inputstructure_atoms_scaled : List (String × V3)
  inputstructure_atoms_cartesian : List (String × V3)
  atoms_scaled : List (String × V3)
  atoms_cartesian : List (String × V3)
  direct_vectors : List (Nat × V3)
  xsfstructure : List XsfLine
deriving DecidableEq

/-- A failure inside an assembly block: the exception raised, together
with the first name in the `return dict(...)` argument list (evaluated
left to right) that the failure left unbound.  The second component is
what a caller that swallows the exception and still executes the
`return` will trip over. -/
structure AsmFail where
  exc : PyExc
  firstUnboundReturnVar : String
deriving DecidableEq

/-- `[(idx, c[0], c[1], c[2]) for idx, c in enumerate(cell, start=1)]`
over the three rows of a lattice matrix. -/
def enumerate1 (m : Mat3) : List (Nat × V3) :=
  [(1, m.r1), (2, m.r2), (3, m.r3)]

/-- The assembly block of `process_structure_core` (run_app.py lines
434–498), in source order.  The only failure points are the two
`chemical_symbols[num]` lookups; the first (line 460) precedes the
binding of `raw_code`, the second (line 470) precedes the binding of
`inputstructure_atoms_scaled`, which is in each case the first name of
the `return dict(...)` left unbound. -/
def live_assembly_block (structure_tuple s : StructureTuple) :
    Except AsmFail Assembled :=
  let in_cell := structure_tuple.cell
  let in_scaled := structure_tuple.scaled_coords
  let in_numbers := structure_tuple.atomic_numbers
  let path_results := get_json_for_visualizer s
  let inputstructure_positions_cartesian := in_scaled.map (fun v => rowMulMat v in_cell)
  let primitive_positions_cartesian :=
    path_results.primitive_positions.map (fun v => rowMulMat v path_results.primitive_lattice)
  let refolded :=
    refolded_cartesian path_results.primitive_positions path_results.primitive_lattice
  match lookup_symbols path_results.primitive_types with
  | .error e => .error ⟨e, "raw_code"⟩
  | .ok primitive_symbols =>
    let raw_code : RawCodeDict :=
      ⟨path_results.primitive_positions, path_results.primitive_lattice,
       path_results.primitive_types, primitive_positions_cartesian, primitive_symbols⟩
    let inputstructure_cell_vectors := enumerate1 in_cell
    match lookup_symbols in_numbers with
    | .error e => .error ⟨e, "inputstructure_atoms_scaled"⟩
    | .ok inputstructure_symbols =>
      .ok
        { raw_code := raw_code,
          inputstructure_cell_vectors := inputstructure_cell_vectors,
          inputstructure_atoms_scaled := inputstructure_symbols.zip in_scaled,
          inputstructure_atoms_cartesian :=
            inputstructure_symbols.zip inputstructure_positions_cartesian,
          atoms_scaled := primitive_symbols.zip path_results.primitive_positions,
          atoms_cartesian := primitive_symbols.zip primitive_positions_cartesian,
          direct_vectors := enumerate1 path_results.primitive_lattice,
          xsfstructure :=
            xsf_lines path_results.primitive_lattice path_results.primitive_types refolded }

/-- The assembly block of `process_precomputed_core` (run_app.py lines
159–223), a verbatim repetition of the live block's code; translated
independently from its own source lines. -/
def precomputed_assembly_block (structure_tuple s : StructureTuple) :
    Except AsmFail Assembled :=
  let in_cell := structure_tuple.cell
  let in_scaled := structure_tuple.scaled_coords
  let in_numbers := structure_tuple.atomic_numbers
  let path_results := get_json_for_visualizer s
  let inputstructure_positions_cartesian := in_scaled.map (fun v => rowMulMat v in_cell)
  let primitive_positions_cartesian :=
    path_results.primitive_positions.map (fun v => rowMulMat v path_results.primitive_lattice)
  let refolded :=
    refolded_cartesian path_results.primitive_positions path_results.primitive_lattice
  match lookup_symbols path_results.primitive_types with
  | .error e => .error ⟨e, "raw_code"⟩
  | .ok primitive_symbols =>
    let raw_code : RawCodeDict :=
      ⟨path_results.primitive_positions, path_results.primitive_lattice,
       path_results.primitive_types, primitive_positions_cartesian, primitive_symbols⟩
    let inputstructure_cell_vectors := enumerate1 in_cell
    match lookup_symbols in_numbers with
    | .error e => .error ⟨e, "inputstructure_atoms_scaled"⟩
    | .ok inputstructure_symbols =>
      .ok
        { raw_code := raw_code,
          inputstructure_cell_vectors := inputstructure_cell_vectors,
          inputstructure_atoms_scaled := inputstructure_symbols.zip in_scaled,
          inputstructure_atoms_cartesian :=
            inputstructure_symbols.zip inputstructure_positions_cartesian,
          atoms_scaled := primitive_symbols.zip path_results.primitive_positions,
          atoms_cartesian := primitive_symbols.zip primitive_positions_cartesian,
          direct_vectors := enumerate1 path_results.primitive_lattice,
          xsfstructure :=
            xsf_lines path_results.primitive_lattice path_results.primitive_types refolded }

/-- Modelled from the spec: `MODEL_VERSION`, a model-version tag echoed
in the output; its value lives in `conf.py`, which is not under `src/`. -/
def MODEL_VERSION : String := "model-version-tag"

/-- The dictionary either core function returns (run_app.py lines
516–533 and 228–245), with the wall-clock `compute_time` field
omitted. -/
structure OutputBundle where
  raw_code : RawCodeDict
  prediction_labels : List String
  metal_indices : List Nat
  predictions_output : List ℚ
  featurization_output : String
  inputstructure_cell_vectors : List (Nat × V3)
  inputstructure_atoms_scaled : List (String × V3)
  inputstructure_atoms_cartesian : List (String × V3)
  atoms_scaled : List (String × V3)
  direct_vectors : List (Nat × V3)
  atoms_cartesian : List (String × V3)
  model_version : String
  xsfstructure : List XsfLine
  feature_values : List (Nat × ℚ)
deriving DecidableEq

instance exceptDecEq {ε α : Type} [DecidableEq ε] [DecidableEq α] :
    DecidableEq (Except ε α) := fun a b =>
  match a, b with
  | .ok x, .ok y =>
      if h : x = y then .isTrue (by rw [h]) else .isFalse (by intro hc; cases hc; exact h rfl)
  | .error x, .error y =>
      if h : x = y then .isTrue (by rw [h]) else .isFalse (by intro hc; cases hc; exact h rfl)
  | .ok _, .error _ => .isFalse (by intro hc; cases hc)
  | .error _, .ok _ => .isFalse (by intro hc; cases hc)

/-- Result of running a core function: whether control reached the
assembly block (run_app.py line 434 / line 159), and the returned value
or escaped exception. -/
structure CoreRun where
  assembled : Bool
  result : Except PyExc OutputBundle
deriving DecidableEq

/-- Message of run_app.py line 289. -/
def unknown_format_msg (fileformat : String) : String :=
  "Unknown format " ++ sq ++ fileformat ++ sq

/-- Message of run_app.py line 302. -/
def overlap_msg : String :=
  "Sorry, there seem to be overlapping errors in the input structure"

/-- Message of run_app.py lines 317–319 (never actually delivered, see
`c2_large_structure_handler_crashes`). -/
def large_structure_msg (limit count : Nat) : String :=
  "Sorry, this online visualizer is limited to " ++ toString limit ++
  " atoms in the input cell, while your structure has " ++ toString count ++ " atoms."

/-- Message of run_app.py lines 334–335 and 131–132. -/
def parse_fail_msg (fileformat cause : String) : String :=
  "I tried my best, but I wasn" ++ sq ++ "t able to load your file in format " ++
  sq ++ fileformat ++ sq ++ "... because of " ++ cause

/-- Message of run_app.py lines 372–374 (featurization failure; note
`e.g.` with no comma). -/
def featurization_failed_msg : String :=
  "Sorry, the featurization failed. Make sure that your structure is not pathological (e.g. containing overlapping atoms)."

/-- Message of run_app.py lines 414–416 (prediction-stage
`UnboundLocalError`; note `e.g.,` with a comma). -/
def prediction_unbound_msg : String :=
  "Sorry, the featurization failed. Make sure that your structure is not pathological (e.g., containing overlapping atoms)."

/-- Message of run_app.py lines 154–155. -/
def precomputed_result_msg (name cause : String) : String :=
  "I tried my best, but I wasn" ++ sq ++ "t able to load your result for " ++
  sq ++ name ++ sq ++ "... because of " ++ cause

/-- run_app.py lines 434–533: control flow after the prediction stage.
The assembly `try` runs regardless of how the prediction stage ended;
on an assembly exception the block logs and re-raises (line 514).  The
`return dict(...)` then reads `raw_code` (bound by a successful
assembly) and the prediction-stage locals in argument order:
`prediction_labels` first, `featurization_output` after the fields
bound from featurization. -/
def continue_after_prediction (structure_tuple s : StructureTuple)
    (fb : FeatureBundle) (predsLocal : Option Preds)
    (explLocal : Option String) : CoreRun :=
  match live_assembly_block structure_tuple s with
  | .error f => ⟨true, .error f.exc⟩
  | .ok a =>
      ⟨true, do
        let p ← readLocal predsLocal "prediction_labels"
        let ex ← readLocal explLocal "featurization_output"
        pure
          { raw_code := a.raw_code,
            prediction_labels := p.prediction_labels,
            metal_indices := fb.metal_indices,
            predictions_output := p.predictions_output,
            featurization_output := ex,
            inputstructure_cell_vectors := a.inputstructure_cell_vectors,
            inputstructure_atoms_scaled := a.inputstructure_atoms_scaled,
            inputstructure_atoms_cartesian := a.inputstructure_atoms_cartesian,
            atoms_scaled := a.atoms_scaled,
            direct_vectors := a.direct_vectors,
            atoms_cartesian := a.atoms_cartesian,
            model_version := MODEL_VERSION,
            xsfstructure := a.xsfstructure,
            feature_values := fb.feature_value_dict }⟩

/-- `process_structure_core` (run_app.py lines 248–533).  External
collaborator outcomes are arguments: `parse` is `get_structure_tuple`,
`feat` is `_featurize_single`, `predsOutcome` is `predictions`,
`explOutcome` is `get_explanations`.  In the `except LargeStructureError`
handler the local `structure_tuple` is read although the raising
statement was its only assignment, so the read itself raises
`UnboundLocalError` (run_app.py line 313) before the redirect message of
lines 317–319 can be built.  A prediction-stage `UnboundLocalError` is
turned into a redirect whose message reports a featurization failure
(lines 404–416); any other prediction-stage exception is only logged
(lines 417–431) and control falls through to the assembly block. -/
def process_structure_core (fileformat : String) (maxAtoms : Nat)
    (parse : Except PyExc (StructureTuple × StructureTuple))
    (feat : Except PyExc FeatureBundle)
    (predsOutcome : Except PyExc Preds)
    (explOutcome : Except PyExc String) : CoreRun :=
  match parse with
  | .error .unknownFormatError =>
      ⟨false, .error (.flaskRedirect (unknown_format_msg fileformat))⟩
  | .error .overlapError =>
      ⟨false, .error (.flaskRedirect overlap_msg)⟩
  | .error .largeStructureError =>
      let structure_tuple : Option StructureTuple := none
      ⟨false, .error
        (match readLocal structure_tuple "structure_tuple" with
         | .error e => e
         | .ok st => .flaskRedirect (large_structure_msg maxAtoms st.scaled_coords.length))⟩
  | .error e =>
      ⟨false, .error (.flaskRedirect (parse_fail_msg fileformat (pyExcStr e)))⟩
  | .ok (structure_tuple, s) =>
    match feat with
    | .error _ =>
        ⟨false, .error (.flaskRedirect featurization_failed_msg)⟩
    | .ok fb =>
      match predsOutcome with
      | .error (.unboundLocalError _) =>
          ⟨false, .error (.flaskRedirect prediction_unbound_msg)⟩
      | .error _ =>
          continue_after_prediction structure_tuple s fb none none
      | .ok p =>
        match explOutcome with
        | .error (.unboundLocalError _) =>
            ⟨false, .error (.flaskRedirect prediction_unbound_msg)⟩
        | .error _ =>
            continue_after_prediction structure_tuple s fb (some p) none
        | .ok ex =>
            continue_after_prediction structure_tuple s fb (some p) (some ex)

/-- The pickled payload loaded by `process_precomputed_core` (run_app.py
lines 141–150). -/
structure PrecomputedDict where
  feature_array : List (List ℚ)
  feature_value_dict : List (Nat × ℚ)
  metal_indices : List Nat
  feature_names : List String
  metal_sites : List Nat
  predictions_output : List ℚ
  prediction_labels : List String
  featurization_output : String
deriving DecidableEq

/-- `process_precomputed_core` (run_app.py lines 91–245). `parse` is the
`CifParser(...).get_structures()[0]` outcome, `pickle` the
`load_pickle` outcome.  A parse failure redirects with the
format-and-cause message of lines 131–132 (which does not mention
`name`); a pickle failure redirects with the name-and-cause message of
lines 154–155.  An exception inside the assembly block is logged and
swallowed (lines 225–226), after which the `return dict(...)` reads the
first assembly local it left unbound, raising `UnboundLocalError`. -/
def process_precomputed_core (name : String)
    (parse : Except PyExc StructureTuple)
    (pickle : Except PyExc PrecomputedDict) : CoreRun :=
  match parse with
  | .error e =>
      ⟨false, .error (.flaskRedirect (parse_fail_msg "cif" (pyExcStr e)))⟩
  | .ok s =>
    let structure_tuple := tuple_from_pymatgen s
    match pickle with
    | .error e =>
        ⟨false, .error (.flaskRedirect (precomputed_result_msg name (pyExcStr e)))⟩
    | .ok pd =>
      match precomputed_assembly_block structure_tuple s with
      | .error f => ⟨true, .error (.unboundLocalError f.firstUnboundReturnVar)⟩
      | .ok a =>
          ⟨true, .ok
            { raw_code := a.raw_code,
              prediction_labels := pd.prediction_labels,
              metal_indices := pd.metal_indices,
              predictions_output := pd.predictions_output,
              featurization_output := pd.featurization_output,
              inputstructure_cell_vectors := a.inputstructure_cell_vectors,
              inputstructure_atoms_scaled := a.inputstructure_atoms_scaled,
              inputstructure_atoms_cartesian := a.inputstructure_atoms_cartesian,
              atoms_scaled := a.atoms_scaled,
              direct_vectors := a.direct_vectors,
              atoms_cartesian := a.atoms_cartesian,
              model_version := MODEL_VERSION,
              xsfstructure := a.xsfstructure,
              feature_values := pd.feature_value_dict }⟩

/-- The route-level exception chain of `process_structure` (run_app.py
lines 600–620): a `FlaskRedirectException` flashes its own message, the
typed crystal errors flash fixed texts, and anything else falls into the
catch-all with a generic message carrying `str(e)`. -/
inductive RouteOutcome where
  | rendered (data : OutputBundle)
  | redirect (flashMsg : String)
deriving DecidableEq

/-- `process_structure` route boundary (run_app.py lines 600–620),
applied to a finished core run. -/
def process_structure_route (run : CoreRun) : RouteOutcome :=
  match run.result with
  | .ok d => .rendered d
  | .error (.flaskRedirect m) => .redirect m
  | .error .overlapError => .redirect "Maybe you have overlapping atoms?"
  | .error .largeStructureError =>
      .redirect "You seem to have too many atoms in your structure to run on the web"
  | .error e =>
      .redirect ("Unable to process the structure, sorry... " ++ pyExcStr e)

/-! ### Concrete sample inputs -/

/-- The identity lattice `diag(1,1,1)`. -/
def idMat : Mat3 := ⟨⟨1, 0, 0⟩, ⟨0, 1, 0⟩, ⟨0, 0, 1⟩⟩

/-- The scenario structure: identity lattice, one Fe atom (atomic number
26) at fractional position `(0,0,0)`. -/
def sampleTuple : StructureTuple := ⟨idMat, [⟨0, 0, 0⟩], [26]⟩

/-- A minimal featurization outcome. -/
def sampleFeature : FeatureBundle := ⟨[[1]], [(0, 1)], [0], ["f"]⟩

/-- A minimal prediction outcome. -/
def samplePreds : Preds := ⟨[1], ["label"], [0]⟩

/-- A minimal precomputed payload. -/
def samplePd : PrecomputedDict := ⟨[[1]], [(0, 1)], [0], ["f"], [0], [1], ["label"], "ex"⟩

/-- A structure whose atomic number 300 is outside the
`chemical_symbols` table, so every symbol lookup on it raises
`IndexError`. -/
def badTuple : StructureTuple := ⟨idMat, [⟨0, 0, 0⟩], [300]⟩

/-! ### Helper lemmas on the control flow -/

lemma continue_after_prediction_shape (st s : StructureTuple) (fb : FeatureBundle)
    (predsLocal : Option Preds) (explLocal : Option String) :
    continue_after_prediction st s fb predsLocal explLocal =
      match live_assembly_block st s with
      | .error f => ⟨true, .error f.exc⟩
      | .ok a =>
        ⟨true, do
          let p ← readLocal predsLocal "prediction_labels"
          let ex ← readLocal explLocal "featurization_output"
          pure
            { raw_code := a.raw_code,
              prediction_labels := p.prediction_labels,
              metal_indices := fb.metal_indices,
              predictions_output := p.predictions_output,
              featurization_output := ex,
              inputstructure_cell_vectors := a.inputstructure_cell_vectors,
              inputstructure_atoms_scaled := a.inputstructure_atoms_scaled,
              inputstructure_atoms_cartesian := a.inputstructure_atoms_cartesian,
              atoms_scaled := a.atoms_scaled,
              direct_vectors := a.direct_vectors,
              atoms_cartesian := a.atoms_cartesian,
              model_version := MODEL_VERSION,
              xsfstructure := a.xsfstructure,
              feature_values := fb.feature_value_dict }⟩ := rfl

lemma continue_after_prediction_assembled (st s : StructureTuple) (fb : FeatureBundle)
    (predsLocal : Option Preds) (explLocal : Option String) :
    (continue_after_prediction st s fb predsLocal explLocal).assembled = true := by
  rw [continue_after_prediction_shape]
  cases live_assembly_block st s <;> rfl

lemma continue_after_prediction_none (st s : StructureTuple) (fb : FeatureBundle)
    (explLocal : Option String) (a : Assembled)
    (ha : live_assembly_block st s = .ok a) :
    (continue_after_prediction st s fb none explLocal).result
      = .error (.unboundLocalError "prediction_labels") := by
  rw [continue_after_prediction_shape, ha]
  rfl

lemma continue_after_prediction_not_ok (st s : StructureTuple) (fb : FeatureBundle)
    (explLocal : Option String) (d : OutputBundle) :
    (continue_after_prediction st s fb none explLocal).result ≠ .ok d := by
  rw [continue_after_prediction_shape]
  cases h : live_assembly_block st s with
  | error f => intro hc; cases hc
  | ok a => intro hc; cases hc

lemma continue_after_prediction_err (st s : StructureTuple) (fb : FeatureBundle)
    (predsLocal : Option Preds) (explLocal : Option String) (f : AsmFail)
    (hf : live_assembly_block st s = .error f) :
    (continue_after_prediction st s fb predsLocal explLocal).result = .error f.exc := by
  rw [continue_after_prediction_shape, hf]

lemma process_structure_core_generic_pred (fileformat : String) (maxAtoms : Nat)
    (st s : StructureTuple) (fb : FeatureBundle) (e : PyExc)
    (explOutcome : Except PyExc String) (h : ∀ v, e ≠ PyExc.unboundLocalError v) :
    process_structure_core fileformat maxAtoms (.ok (st, s)) (.ok fb) (.error e) explOutcome
      = continue_after_prediction st s fb none none := by
  cases e with
  | unknownFormatError => rfl
  | overlapError => rfl
  | largeStructureError => rfl
  | unboundLocalError v => exact absurd rfl (h v)
  | indexError => rfl
  | flaskRedirect m => rfl
  | other m => rfl

lemma process_precomputed_core_block_err (name : String) (s : StructureTuple)
    (pd : PrecomputedDict) (f : AsmFail)
    (hf : precomputed_assembly_block (tuple_from_pymatgen s) s = .error f) :
    (process_precomputed_core name (.ok s) (.ok pd)).result
      = .error (.unboundLocalError f.firstUnboundReturnVar) := by
  simp only [process_precomputed_core]
  rw [hf]

/-! ### C1 -/

set_option maxRecDepth 4000 in
/-- C1 counterexample: with a successful parse and featurization and a
generic prediction-stage exception, `process_structure_core` continues
into the output assembly (`assembled = true`), and the ultimate failure
is an `UnboundLocalError` on `prediction_labels` at the `return`, not a
typed prediction error caught at the boundary.  This refutes the claim
that the pipeline never continues past a failed prediction stage. -/
theorem c1_counterexample :
    (process_structure_core "cif" 200 (.ok (sampleTuple, sampleTuple))
        (.ok sampleFeature) (.error (.other "boom")) (.ok "expl")).assembled = true
    ∧ (process_structure_core "cif" 200 (.ok (sampleTuple, sampleTuple))
        (.ok sampleFeature) (.error (.other "boom")) (.ok "expl")).result
      = .error (.unboundLocalError "prediction_labels") := by decide

/-- C1 (amended): when featurization succeeds and the prediction stage
fails with anything other than `UnboundLocalError`, the failure is only
logged: execution continues into the output assembly, the function never
returns an output bundle, and, whenever the assembly itself succeeds,
the call fails with `UnboundLocalError` on `prediction_labels` while
building the return value (an untyped error that only the route's
catch-all handler sees). -/
theorem c1_prediction_failure_falls_through (fileformat : String) (maxAtoms : Nat)
    (st s : StructureTuple) (fb : FeatureBundle) (e : PyExc)
    (explOutcome : Except PyExc String)
    (h : ∀ v, e ≠ PyExc.unboundLocalError v) :
    (process_structure_core fileformat maxAtoms (.ok (st, s)) (.ok fb)
        (.error e) explOutcome).assembled = true
    ∧ (∀ d, (process_structure_core fileformat maxAtoms (.ok (st, s)) (.ok fb)
        (.error e) explOutcome).result ≠ .ok d)
    ∧ (∀ a, live_assembly_block st s = .ok a →
        (process_structure_core fileformat maxAtoms (.ok (st, s)) (.ok fb)
            (.error e) explOutcome).result
          = .error (.unboundLocalError "prediction_labels")) := by
  rw [process_structure_core_generic_pred fileformat maxAtoms st s fb e explOutcome h]
  exact ⟨continue_after_prediction_assembled st s fb none none,
         fun d => continue_after_prediction_not_ok st s fb none d,
         fun a ha => continue_after_prediction_none st s fb none a ha⟩

/-- C1 witness: the amended theorem applied at a concrete input. -/
theorem c1_prediction_failure_falls_through_witness :
    (process_structure_core "cif" 200 (.ok (sampleTuple, sampleTuple))
        (.ok sampleFeature) (.error (.other "boom")) (.ok "expl")).assembled = true :=
  (c1_prediction_failure_falls_through "cif" 200 sampleTuple sampleTuple sampleFeature
    (.other "boom") (.ok "expl") (fun _ hv => PyExc.noConfusion hv)).1

/-! ### C2 -/

/-- C2: when `get_structure_tuple` raises `LargeStructureError`, the
handler itself crashes: it reads the local `structure_tuple`, whose only
assignment is the statement that raised, so `UnboundLocalError` escapes
instead of the intended `FlaskRedirectException`.  The user therefore
receives the route catch-all's generic message mentioning the unbound
variable, never the message with the limit and the actual atom count. -/
theorem c2_large_structure_handler_crashes (fileformat : String) (maxAtoms : Nat)
    (feat : Except PyExc FeatureBundle) (predsOutcome : Except PyExc Preds)
    (explOutcome : Except PyExc String) :
    (process_structure_core fileformat maxAtoms (.error .largeStructureError)
        feat predsOutcome explOutcome).result
      = .error (.unboundLocalError "structure_tuple")
    ∧ process_structure_route
        (process_structure_core fileformat maxAtoms (.error .largeStructureError)
          feat predsOutcome explOutcome)
      = .redirect ("Unable to process the structure, sorry... "
          ++ pyExcStr (.unboundLocalError "structure_tuple")) :=
  ⟨rfl, rfl⟩

/-! ### C4 -/

set_option maxRecDepth 4000 in
/-- C4 counterexample: for the same structure (`badTuple`, whose atomic
number 300 makes the symbol lookup raise `IndexError` inside the
assembly block) and successful feature/prediction data, the live path
re-raises `IndexError` while the precomputed path swallows the assembly
exception and then fails with `UnboundLocalError` on `raw_code`: the two
paths do not propagate assembly failures the same way. -/
theorem c4_counterexample :
    (process_structure_core "cif" 200 (.ok (badTuple, badTuple)) (.ok sampleFeature)
        (.ok samplePreds) (.ok "expl")).result = .error .indexError
    ∧ (process_precomputed_core "ABCDE" (.ok badTuple) (.ok samplePd)).result
      = .error (.unboundLocalError "raw_code")
    ∧ (process_structure_core "cif" 200 (.ok (badTuple, badTuple)) (.ok sampleFeature)
        (.ok samplePreds) (.ok "expl")).result
      ≠ (process_precomputed_core "ABCDE" (.ok badTuple) (.ok samplePd)).result := by
  decide

/-- C4 (amended): the two assembly blocks are the same transformation —
on every input they return identical results — but failures are not
propagated the same way: when the shared block fails on a structure, the
live path re-raises the block's exception, while the precomputed path
logs and swallows it and then fails with `UnboundLocalError` on the
first return-value name the failure left unbound. -/
theorem c4_assembly_equal_but_propagation_differs (st s : StructureTuple)
    (name : String) (pd : PrecomputedDict) (fileformat : String) (maxAtoms : Nat)
    (fb : FeatureBundle) (p : Preds) (ex : String) (f : AsmFail)
    (hf : live_assembly_block s s = .error f) :
    precomputed_assembly_block st s = live_assembly_block st s
    ∧ (process_structure_core fileformat maxAtoms (.ok (s, s)) (.ok fb)
        (.ok p) (.ok ex)).result = .error f.exc
    ∧ (process_precomputed_core name (.ok s) (.ok pd)).result
      = .error (.unboundLocalError f.firstUnboundReturnVar) := by
  refine ⟨rfl, ?_, ?_⟩
  · exact continue_after_prediction_err s s fb (some p) (some ex) f hf
  · exact process_precomputed_core_block_err name s pd f hf

/-- C4 witness: the amended theorem applied at a concrete input. -/
theorem c4_assembly_equal_but_propagation_differs_witness :
    precomputed_assembly_block badTuple badTuple = live_assembly_block badTuple badTuple
    ∧ (process_structure_core "cif" 200 (.ok (badTuple, badTuple)) (.ok sampleFeature)
        (.ok samplePreds) (.ok "expl")).result = .error .indexError
    ∧ (process_precomputed_core "ABCDE" (.ok badTuple) (.ok samplePd)).result
      = .error (.unboundLocalError "raw_code") :=
  c4_assembly_equal_but_propagation_differs badTuple badTuple "ABCDE" samplePd "cif" 200
    sampleFeature samplePreds "expl" ⟨.indexError, "raw_code"⟩ (by decide)

/-! ### C10 -/

/-- C10 counterexample: the message raised for a prediction-stage
`UnboundLocalError` is not identical to the genuine featurization
failure message — the two strings differ (by a comma after `e.g.`). -/
theorem c10_wordings_differ : featurization_failed_msg ≠ prediction_unbound_msg := by
  decide

/-- C10 (amended): if the prediction/explanation stage raises
`UnboundLocalError`, `process_structure_core` raises a
`FlaskRedirectException` whose message says the featurization failed,
with wording matching the genuine featurization-failure message except
for a comma after `e.g.`; any other exception from that stage is only
logged and execution continues into the output assembly. -/
theorem c10_unbound_local_redirects (fileformat : String) (maxAtoms : Nat)
    (st s : StructureTuple) (fb : FeatureBundle) (v : String) (e : PyExc)
    (explOutcome : Except PyExc String)
    (h : ∀ w, e ≠ PyExc.unboundLocalError w) :
    process_structure_core fileformat maxAtoms (.ok (st, s)) (.ok fb)
        (.error (.unboundLocalError v)) explOutcome
      = ⟨false, .error (.flaskRedirect prediction_unbound_msg)⟩
    ∧ (process_structure_core fileformat maxAtoms (.ok (st, s)) (.ok fb)
        (.error e) explOutcome).assembled = true := by
  constructor
  · rfl
  · rw [process_structure_core_generic_pred fileformat maxAtoms st s fb e explOutcome h]
    exact continue_after_prediction_assembled st s fb none none

/-- C10 witness: the amended theorem applied at a concrete input. -/
theorem c10_unbound_local_redirects_witness :
    process_structure_core "cif" 200 (.ok (sampleTuple, sampleTuple)) (.ok sampleFeature)
        (.error (.unboundLocalError "predictions_output")) (.ok "expl")
      = ⟨false, .error (.flaskRedirect prediction_unbound_msg)⟩
    ∧ (process_structure_core "cif" 200 (.ok (sampleTuple, sampleTuple)) (.ok sampleFeature)
        (.error (.other "boom")) (.ok "expl")).assembled = true :=
  c10_unbound_local_redirects "cif" 200 sampleTuple sampleTuple sampleFeature
    "predictions_output" (.other "boom") (.ok "expl") (fun _ hv => PyExc.noConfusion hv)

/-! ### Substring occurrence (Python `pat in s`) -/

/-- `hasPre p l`: `p` is an initial segment of `l`. -/
def hasPre : List Char → List Char → Bool
  | [], _ => true
  | _ :: _, [] => false
  | a :: as, b :: bs => a == b && hasPre as bs

/-- `hasSub p l`: `p` occurs as a contiguous segment of `l`. -/
def hasSub (p : List Char) : List Char → Bool
  | [] => hasPre p []
  | l@(_ :: t) => hasPre p l || hasSub p t

/-- Python's `pat in s` on strings. -/
def strContains (s pat : String) : Bool := hasSub pat.data s.data

lemma hasPre_self_append (p b : List Char) : hasPre p (p ++ b) = true := by
  induction p with
  | nil => rfl
  | cons a as ih => simp [hasPre, ih]

lemma hasSub_self_append (p b : List Char) : hasSub p (p ++ b) = true := by
  cases hpb : p ++ b with
  | nil =>
    have hp : p = [] := (List.append_eq_nil.mp hpb).1
    simp [hasSub, hp, hasPre]
  | cons c cs =>
    simp only [hasSub]
    rw [← hpb]
    simp [hasPre_self_append]

lemma hasSub_cons (p : List Char) (c : Char) (t : List Char)
    (h : hasSub p t = true) : hasSub p (c :: t) = true := by
  simp [hasSub, h]

lemma hasSub_append_left (a p b : List Char) : hasSub p (a ++ (p ++ b)) = true := by
  induction a with
  | nil => simpa using hasSub_self_append p b
  | cons c cs ih => simpa using hasSub_cons p c _ ih

/-! ### C8 -/

/-- C8 counterexample: when the precomputed *structure file* fails to
load for id `QWXJ9`, the raised `FlaskRedirectException` carries the
format-and-cause message of run_app.py lines 131–132, which does not
contain the id at all — refuting the claim that the load-error message
always carries the id. -/
theorem c8_counterexample :
    (process_precomputed_core "QWXJ9" (.error (.other "boom")) (.ok samplePd)).result
      = .error (.flaskRedirect (parse_fail_msg "cif" "boom"))
    ∧ strContains (parse_fail_msg "cif" "boom") "QWXJ9" = false := by decide

/-- C8 (amended): either load failure raises a `FlaskRedirectException`
and no output bundle is produced, but only the *payload* branch's
message carries the id (together with the underlying cause); the
structure-file branch's message carries the file format and the cause
instead of the id. -/
theorem c8_load_failure_messages (name : String) (cause cause2 : PyExc)
    (pickle : Except PyExc PrecomputedDict) (s : StructureTuple) :
    (process_precomputed_core name (.error cause) pickle).result
      = .error (.flaskRedirect (parse_fail_msg "cif" (pyExcStr cause)))
    ∧ (process_precomputed_core name (.ok s) (.error cause2)).result
      = .error (.flaskRedirect (precomputed_result_msg name (pyExcStr cause2)))
    ∧ strContains (precomputed_result_msg name (pyExcStr cause2)) name = true := by
  refine ⟨rfl, rfl, ?_⟩
  simp only [strContains, precomputed_result_msg, String.data_append, List.append_assoc]
  have h := hasSub_append_left
    (("I tried my best, but I wasn" ++ sq ++ "t able to load your result for " ++ sq).data)
    name.data
    ((sq ++ "... because of ").data ++ (pyExcStr cause2).data)
  simpa [String.data_append, List.append_assoc] using h

/-! ### C3 -/

lemma getElem?_zip_eq {α β : Type} : ∀ (l₁ : List α) (l₂ : List β) (i : Nat)
    (h1 : i < l₁.length) (h2 : i < l₂.length),
    (l₁.zip l₂)[i]? = some (l₁.get ⟨i, h1⟩, l₂.get ⟨i, h2⟩) := by
  intro l₁
  induction l₁ with
  | nil => intro l₂ i h1 h2; simp at h1
  | cons a as ih =>
    intro l₂ i h1 h2
    cases l₂ with
    | nil => simp at h2
    | cons b bs =>
      cases i with
      | zero => simp
      | succ j =>
        have h1' : j < as.length := by simpa using h1
        have h2' : j < bs.length := by simpa using h2
        simpa using ih bs j h1' h2'

/-- C3 counterexample: on the one-atom identity-lattice structure, the
XSF block does *not* have the shape claimed (atom lines before the
`"<count> 1"` line): the count line precedes the atom lines. -/
theorem c3_counterexample :
    xsf_lines idMat [26] [⟨0, 0, 0⟩]
      ≠ [XsfLine.header "CRYSTAL", XsfLine.header "PRIMVEC",
         XsfLine.lvec 1 0 0, XsfLine.lvec 0 1 0, XsfLine.lvec 0 0 1,
         XsfLine.header "PRIMCOORD",
         XsfLine.atomLine 26 0 0 0, XsfLine.countLine 1] := by decide

/-- C3 (amended): the crystal-file block is `CRYSTAL`, `PRIMVEC`, the
three lattice-vector lines, `PRIMCOORD`, then the atom count line
`"<count> 1"` (count = number of primitive atoms), and only then one
`atomic_number x y z` line per atom with refolded Cartesian positions:
the count line comes directly after `PRIMCOORD`, before the atom lines,
not after them. -/
theorem c3_xsf_layout (lattice : Mat3) (types : List Nat) (refolded : List V3)
    (h : types.length = refolded.length) :
    (xsf_lines lattice types refolded).length = 7 + types.length
    ∧ (xsf_lines lattice types refolded)[0]? = some (.header "CRYSTAL")
    ∧ (xsf_lines lattice types refolded)[1]? = some (.header "PRIMVEC")
    ∧ (xsf_lines lattice types refolded)[2]?
      = some (.lvec lattice.r1.x lattice.r1.y lattice.r1.z)
    ∧ (xsf_lines lattice types refolded)[3]?
      = some (.lvec lattice.r2.x lattice.r2.y lattice.r2.z)
    ∧ (xsf_lines lattice types refolded)[4]?
      = some (.lvec lattice.r3.x lattice.r3.y lattice.r3.z)
    ∧ (xsf_lines lattice types refolded)[5]? = some (.header "PRIMCOORD")
    ∧ (xsf_lines lattice types refolded)[6]? = some (.countLine refolded.length)
    ∧ ∀ (i : Nat) (h1 : i < types.length) (h2 : i < refolded.length),
        (xsf_lines lattice types refolded)[7 + i]?
          = some (.atomLine (types.get ⟨i, h1⟩) (refolded.get ⟨i, h2⟩).x
              (refolded.get ⟨i, h2⟩).y (refolded.get ⟨i, h2⟩).z) := by
  refine ⟨?_, by simp [xsf_lines], by simp [xsf_lines], by simp [xsf_lines],
    by simp [xsf_lines], by simp [xsf_lines], by simp [xsf_lines], by simp [xsf_lines], ?_⟩
  · simp only [xsf_lines, List.length_append, List.length_map, List.length_zip, h,
      List.length_cons, List.length_nil, Nat.min_self]
  · intro i h1 h2
    have hpre :
        ([XsfLine.header "CRYSTAL", XsfLine.header "PRIMVEC",
          XsfLine.lvec lattice.r1.x lattice.r1.y lattice.r1.z,
          XsfLine.lvec lattice.r2.x lattice.r2.y lattice.r2.z,
          XsfLine.lvec lattice.r3.x lattice.r3.y lattice.r3.z,
          XsfLine.header "PRIMCOORD",
          XsfLine.countLine refolded.length] : List XsfLine).length ≤ 7 + i := by
      simp
    rw [xsf_lines, List.getElem?_append_right hpre]
    have hidx :
        7 + i -
          ([XsfLine.header "CRYSTAL", XsfLine.header "PRIMVEC",
            XsfLine.lvec lattice.r1.x lattice.r1.y lattice.r1.z,
            XsfLine.lvec lattice.r2.x lattice.r2.y lattice.r2.z,
            XsfLine.lvec lattice.r3.x lattice.r3.y lattice.r3.z,
            XsfLine.header "PRIMCOORD",
            XsfLine.countLine refolded.length] : List XsfLine).length = i := by
      simp
    rw [hidx, List.getElem?_map, getElem?_zip_eq types refolded i h1 h2]
    rfl

/-- C3 witness: the amended layout theorem applied at a concrete input:
line 6 is the count line and line 7 the single atom line. -/
theorem c3_xsf_layout_witness :
    (xsf_lines idMat [26] [⟨0, 0, 0⟩])[6]? = some (.countLine 1)
    ∧ (xsf_lines idMat [26] [⟨0, 0, 0⟩])[7 + 0]? = some (.atomLine 26 0 0 0) := by
  have h := c3_xsf_layout idMat [26] [⟨0, 0, 0⟩] (by decide)
  exact ⟨h.2.2.2.2.2.2.2.1, h.2.2.2.2.2.2.2.2 0 (by decide) (by decide)⟩

/-! ### C5 -/

/-- C5: the refolding step applies `% 1.0` componentwise to the
fractional coordinates *before* the matrix product with the primitive
lattice; the modulo is mathematically non-negative, and every refolded
fractional coordinate component lies in `[0, 1)`. -/
theorem c5_refold_range (positions : List V3) (lattice : Mat3) (q : ℚ) (v : V3)
    (hv : v ∈ positions.map vmod1) :
    refolded_cartesian positions lattice
      = (positions.map vmod1).map (fun w => rowMulMat w lattice)
    ∧ (0 ≤ pymod1 q ∧ pymod1 q < 1)
    ∧ ((0 ≤ v.x ∧ v.x < 1) ∧ (0 ≤ v.y ∧ v.y < 1) ∧ (0 ≤ v.z ∧ v.z < 1)) := by
  have hf : ∀ r : ℚ, 0 ≤ pymod1 r ∧ pymod1 r < 1 := by
    intro r
    have hfr : pymod1 r = Int.fract r := rfl
    rw [hfr]
    exact ⟨Int.fract_nonneg r, Int.fract_lt_one r⟩
  rcases List.mem_map.mp hv with ⟨w, _, rfl⟩
  exact ⟨rfl, hf q, ⟨hf w.x, hf w.y, hf w.z⟩⟩

/-- C5 witness: the refolding theorem applied at a concrete position
with negative and above-one components. -/
theorem c5_refold_range_witness :
    refolded_cartesian [⟨-1/2, 3/2, 0⟩] idMat
      = (([⟨-1/2, 3/2, 0⟩] : List V3).map vmod1).map (fun w => rowMulMat w idMat)
    ∧ (0 ≤ pymod1 (-5/4) ∧ pymod1 (-5/4) < 1)
    ∧ ((0 ≤ (vmod1 ⟨-1/2, 3/2, 0⟩).x ∧ (vmod1 ⟨-1/2, 3/2, 0⟩).x < 1)
      ∧ (0 ≤ (vmod1 ⟨-1/2, 3/2, 0⟩).y ∧ (vmod1 ⟨-1/2, 3/2, 0⟩).y < 1)
      ∧ (0 ≤ (vmod1 ⟨-1/2, 3/2, 0⟩).z ∧ (vmod1 ⟨-1/2, 3/2, 0⟩).z < 1)) :=
  c5_refold_range [⟨-1/2, 3/2, 0⟩] idMat (-5/4) (vmod1 ⟨-1/2, 3/2, 0⟩)
    (List.mem_map_of_mem vmod1 (List.mem_singleton_self (⟨-1/2, 3/2, 0⟩ : V3)))

/-! ### C7 -/

/-- Cartesian positions of the input atom table of a finished run. -/
def run_input_cart (r : CoreRun) : Option (List V3) :=
  match r.result with
  | .ok d => some (d.inputstructure_atoms_cartesian.map Prod.snd)
  | .error _ => none

/-- Cartesian positions of the primitive structure in the raw-code dump
of a finished run. -/
def run_prim_cart (r : CoreRun) : Option (List V3) :=
  match r.result with
  | .ok d => some d.raw_code.primitive_positions_cartesian
  | .error _ => none

/-- XSF block of a finished run. -/
def run_xsf (r : CoreRun) : Option (List XsfLine) :=
  match r.result with
  | .ok d => some d.xsfstructure
  | .error _ => none

/-- A full successful run of `process_structure_core` on the scenario
structure (identity lattice, one Fe atom at the origin). -/
def sampleRun : CoreRun :=
  process_structure_core "cif" 200 (.ok (sampleTuple, sampleTuple))
    (.ok sampleFeature) (.ok samplePreds) (.ok "expl")

/-- The XSF block of the one-Fe-atom identity-lattice scenario. -/
def sampleXsf : List XsfLine :=
  [XsfLine.header "CRYSTAL", XsfLine.header "PRIMVEC",
   XsfLine.lvec 1 0 0, XsfLine.lvec 0 1 0, XsfLine.lvec 0 0 1,
   XsfLine.header "PRIMCOORD", XsfLine.countLine 1,
   XsfLine.atomLine 26 0 0 0]

/-- The assembly result for the one-Fe-atom identity-lattice scenario. -/
def sampleAssembled : Assembled :=
  { raw_code := ⟨[⟨0, 0, 0⟩], idMat, [26], [⟨0, 0, 0⟩], ["Fe"]⟩,
    inputstructure_cell_vectors := [(1, ⟨1, 0, 0⟩), (2, ⟨0, 1, 0⟩), (3, ⟨0, 0, 1⟩)],
    inputstructure_atoms_scaled := [("Fe", ⟨0, 0, 0⟩)],
    inputstructure_atoms_cartesian := [("Fe", ⟨0, 0, 0⟩)],
    atoms_scaled := [("Fe", ⟨0, 0, 0⟩)],
    atoms_cartesian := [("Fe", ⟨0, 0, 0⟩)],
    direct_vectors := [(1, ⟨1, 0, 0⟩), (2, ⟨0, 1, 0⟩), (3, ⟨0, 0, 1⟩)],
    xsfstructure := sampleXsf }

lemma pymod1_zero : pymod1 0 = 0 := by simp [pymod1]

lemma vmod1_zero : vmod1 ⟨0, 0, 0⟩ = ⟨0, 0, 0⟩ := by
  simp [vmod1, pymod1_zero]

lemma rowMulMat_zero (m : Mat3) : rowMulMat ⟨0, 0, 0⟩ m = ⟨0, 0, 0⟩ := by
  simp [rowMulMat]

lemma except_ok_bind {ε α β : Type} (a : α) (f : α → Except ε β) :
    ((Except.ok a : Except ε α) >>= f) = f a := rfl

lemma sample_prim : get_primitive_structure sampleTuple = sampleTuple := by
  simp [get_primitive_structure, sampleTuple, vmod1_zero]

set_option maxRecDepth 4000 in
lemma sample_assembly_eval :
    live_assembly_block sampleTuple sampleTuple = .ok sampleAssembled := by
  have hsym : lookup_symbols [26] = .ok ["Fe"] := by decide
  simp only [live_assembly_block, get_json_for_visualizer, sample_prim]
  simp only [sampleTuple, hsym]
  simp [sampleAssembled, sampleXsf, refolded_cartesian, xsf_lines, enumerate1, idMat,
    vmod1_zero, rowMulMat_zero]

/-- C7: for the structure with lattice `diag(1,1,1)` and one atom of
atomic number 26 at fractional `(0,0,0)`, the computed Cartesian
position is `(0,0,0)` (both in the input table and for the primitive
cell), and the crystal-file block is exactly `CRYSTAL`, `PRIMVEC`,
`1 0 0`, `0 1 0`, `0 0 1`, `PRIMCOORD`, `1 1`, `26 0 0 0`. -/
theorem c7_scenario :
    run_input_cart sampleRun = some [⟨0, 0, 0⟩]
    ∧ run_prim_cart sampleRun = some [⟨0, 0, 0⟩]
    ∧ run_xsf sampleRun = some
        [XsfLine.header "CRYSTAL", XsfLine.header "PRIMVEC",
         XsfLine.lvec 1 0 0, XsfLine.lvec 0 1 0, XsfLine.lvec 0 0 1,
         XsfLine.header "PRIMCOORD", XsfLine.countLine 1,
         XsfLine.atomLine 26 0 0 0] := by
  have h1 : sampleRun = continue_after_prediction sampleTuple sampleTuple sampleFeature
      (some samplePreds) (some "expl") := rfl
  rw [h1, continue_after_prediction_shape, sample_assembly_eval]
  simp [run_input_cart, run_prim_cart, run_xsf, readLocal, except_ok_bind,
    sampleAssembled, sampleXsf]

/-! ### C9 -/

/-- A structure is already in the model's primitive form: all fractional
coordinates inside the principal cell, no coincident
`(position, atomic number)` pair, and matching list lengths. -/
def IsPrimitiveForm (s : StructureTuple) : Prop :=
  s.scaled_coords.map vmod1 = s.scaled_coords
  ∧ (s.scaled_coords.zip s.atomic_numbers).Nodup
  ∧ s.scaled_coords.length = s.atomic_numbers.length

lemma pymod1_pymod1 (q : ℚ) : pymod1 (pymod1 q) = pymod1 q := by
  have h : ∀ r : ℚ, pymod1 r = Int.fract r := fun _ => rfl
  rw [h, h, Int.fract_fract]

lemma vmod1_idem (v : V3) : vmod1 (vmod1 v) = vmod1 v := by
  show V3.mk _ _ _ = V3.mk _ _ _
  simp [vmod1, pymod1_pymod1]

lemma map_eq_self_of_fix {α : Type} (f : α → α) :
    ∀ (l : List α), (∀ x ∈ l, f x = x) → l.map f = l := by
  intro l
  induction l with
  | nil => intro _; rfl
  | cons a as ih =>
    intro hx
    have ha := hx a (List.mem_cons_self a as)
    have has := ih (fun x hxm => hx x (List.mem_cons_of_mem a hxm))
    simp [ha, has]

/-- C9: the modelled primitive reduction is idempotent — reducing twice
equals reducing once on every structure — and a structure already in
primitive form is returned equal to itself. -/
theorem c9_reduce_idempotent :
    (∀ s : StructureTuple,
      get_primitive_structure (get_primitive_structure s) = get_primitive_structure s)
    ∧ (∀ s : StructureTuple, IsPrimitiveForm s → get_primitive_structure s = s) := by
  constructor
  · intro s
    simp only [get_primitive_structure]
    have h1 : ((s.scaled_coords.map vmod1).zip s.atomic_numbers).dedup.unzip.1.map vmod1
        = ((s.scaled_coords.map vmod1).zip s.atomic_numbers).dedup.unzip.1 := by
      apply map_eq_self_of_fix
      intro x hx
      rw [List.unzip_fst] at hx
      rcases List.mem_map.mp hx with ⟨p, hp, rfl⟩
      have hpz : p ∈ (s.scaled_coords.map vmod1).zip s.atomic_numbers :=
        List.mem_dedup.mp hp
      have hp1 : p.1 ∈ s.scaled_coords.map vmod1 := (List.of_mem_zip hpz).1
      rcases List.mem_map.mp hp1 with ⟨y, _, hcomp⟩
      rw [← hcomp, vmod1_idem]
    rw [h1, List.zip_unzip, List.dedup_idem]
  · rintro s ⟨hfold, hnodup, hlen⟩
    simp only [get_primitive_structure]
    rw [hfold, List.dedup_eq_self.mpr hnodup, List.unzip_zip hlen]

/-- C9 witness: the reduction theorem applied at the concrete sample
structure, which is already in primitive form. -/
theorem c9_reduce_idempotent_witness :
    get_primitive_structure (get_primitive_structure sampleTuple)
      = get_primitive_structure sampleTuple
    ∧ get_primitive_structure sampleTuple = sampleTuple :=
  ⟨c9_reduce_idempotent.1 sampleTuple,
   c9_reduce_idempotent.2 sampleTuple
     ⟨by simp [sampleTuple, vmod1_zero], by decide, by decide⟩⟩

/-! ### C6 -/

lemma symbolLookup_ok (n : Nat) (s' : String) (h : symbolLookup n = .ok s') :
    s' = symOf n := by
  unfold symbolLookup at h
  split at h
  · rename_i hlt
    cases h
    simp [symOf, List.getD, List.getElem?_eq_getElem hlt, List.get_eq_getElem]
  · cases h

lemma lookup_symbols_ok : ∀ (l : List Nat) (ys : List String),
    lookup_symbols l = .ok ys → ys = l.map symOf := by
  intro l
  induction l with
  | nil =>
    intro ys h
    cases h
    rfl
  | cons n rest ih =>
    intro ys h
    simp only [lookup_symbols] at h
    cases hn : symbolLookup n with
    | error e => rw [hn] at h; cases h
    | ok s' =>
      rw [hn] at h
      cases hr : lookup_symbols rest with
      | error e => rw [hr, except_ok_bind] at h; cases h
      | ok os =>
        rw [hr, except_ok_bind, except_ok_bind] at h
        cases h
        simp [symbolLookup_ok n s' hn, ih os hr]

lemma prim_lengths (s : StructureTuple) :
    (get_primitive_structure s).scaled_coords.length
      = (get_primitive_structure s).atomic_numbers.length := by
  simp only [get_primitive_structure]
  rw [List.unzip_fst, List.unzip_snd]
  simp

/-- C6: in every atom table the assembly builds — conventional and
primitive, fractional and Cartesian, and the refolded atom lines of the
XSF block — the number of entries equals the number of atomic numbers
and of coordinate triples, and the i-th entry pairs the chemical symbol
of the i-th atomic number with the i-th position of that
representation. -/
theorem c6_atom_tables (st s : StructureTuple) (a : Assembled)
    (hok : live_assembly_block st s = .ok a)
    (hlen : st.scaled_coords.length = st.atomic_numbers.length) :
    (a.inputstructure_atoms_scaled.length = st.atomic_numbers.length
      ∧ a.inputstructure_atoms_scaled.length = st.scaled_coords.length
      ∧ a.inputstructure_atoms_scaled
          = (st.atomic_numbers.map symOf).zip st.scaled_coords)
    ∧ (a.inputstructure_atoms_cartesian.length = st.atomic_numbers.length
      ∧ a.inputstructure_atoms_cartesian
          = (st.atomic_numbers.map symOf).zip
              (st.scaled_coords.map (fun v => rowMulMat v st.cell)))
    ∧ (a.atoms_scaled.length = (get_primitive_structure s).atomic_numbers.length
      ∧ a.atoms_scaled.length = (get_primitive_structure s).scaled_coords.length
      ∧ a.atoms_scaled
          = ((get_primitive_structure s).atomic_numbers.map symOf).zip
              (get_primitive_structure s).scaled_coords
      ∧ a.atoms_cartesian
          = ((get_primitive_structure s).atomic_numbers.map symOf).zip
              ((get_primitive_structure s).scaled_coords.map
                (fun v => rowMulMat v (get_primitive_structure s).cell)))
    ∧ a.xsfstructure.drop 7
        = ((get_primitive_structure s).atomic_numbers.zip
            (refolded_cartesian (get_primitive_structure s).scaled_coords
              (get_primitive_structure s).cell)).map
            (fun p => XsfLine.atomLine p.1 p.2.x p.2.y p.2.z)
    ∧ ∀ (i : Nat) (h1 : i < st.atomic_numbers.length)
        (h2 : i < st.scaled_coords.length),
        a.inputstructure_atoms_scaled[i]?
          = some (symOf (st.atomic_numbers.get ⟨i, h1⟩), st.scaled_coords.get ⟨i, h2⟩) := by
  simp only [live_assembly_block] at hok
  cases hps : lookup_symbols (get_json_for_visualizer s).primitive_types with
  | error e => rw [hps] at hok; cases hok
  | ok ps =>
    rw [hps] at hok
    cases hqs : lookup_symbols st.atomic_numbers with
    | error e => rw [hqs] at hok; cases hok
    | ok qs =>
      rw [hqs] at hok
      injection hok with hrec
      subst hrec
      have hps' : ps = (get_json_for_visualizer s).primitive_types.map symOf :=
        lookup_symbols_ok _ _ hps
      have hqs' : qs = st.atomic_numbers.map symOf :=
        lookup_symbols_ok _ _ hqs
      subst hps'
      subst hqs'
      refine ⟨⟨?_, ?_, rfl⟩, ⟨?_, rfl⟩, ⟨?_, ?_, ?_, ?_⟩, ?_, ?_⟩
      · simp [List.length_zip, hlen]
      · simp [List.length_zip, hlen]
      · simp [List.length_zip, hlen]
      · simp only [get_json_for_visualizer]
        simp [List.length_zip, prim_lengths s]
      · simp only [get_json_for_visualizer]
        simp [List.length_zip, prim_lengths s]
      · simp only [get_json_for_visualizer]
      · simp only [get_json_for_visualizer]
      · simp only [get_json_for_visualizer, xsf_lines]
        rw [show (7 : Nat) =
          ([XsfLine.header "CRYSTAL", XsfLine.header "PRIMVEC",
            XsfLine.lvec (get_primitive_structure s).cell.r1.x
              (get_primitive_structure s).cell.r1.y (get_primitive_structure s).cell.r1.z,
            XsfLine.lvec (get_primitive_structure s).cell.r2.x
              (get_primitive_structure s).cell.r2.y (get_primitive_structure s).cell.r2.z,
            XsfLine.lvec (get_primitive_structure s).cell.r3.x
              (get_primitive_structure s).cell.r3.y (get_primitive_structure s).cell.r3.z,
            XsfLine.header "PRIMCOORD",
            XsfLine.countLine (refolded_cartesian (get_primitive_structure s).scaled_coords
              (get_primitive_structure s).cell).length] : List XsfLine).length from rfl,
          List.drop_left]
      · intro i h1 h2
        have hm : i < (st.atomic_numbers.map symOf).length := by
          simpa using h1
        rw [getElem?_zip_eq (st.atomic_numbers.map symOf) st.scaled_coords i hm h2]
        simp [List.get_eq_getElem, List.getElem_map]

/-- C6 witness: the table theorem applied at the concrete scenario
structure, whose assembly result is `sampleAssembled`. -/
theorem c6_atom_tables_witness :
    sampleAssembled.inputstructure_atoms_scaled.length
      = sampleTuple.atomic_numbers.length :=
  (c6_atom_tables sampleTuple sampleTuple sampleAssembled sample_assembly_eval rfl).1.1

end Oxi
